import Mathlib

/-!
A shallow embedding of the `Money` value adapter from `djmoney/money.py`
(django-money), which extends the base money type of the `py-moneyed`
library with Django-related features: a `decimal_places` display hint, a
read-only `format_options` mapping, metadata propagation across arithmetic,
delegation to the ORM expression system, and optional currency
auto-conversion.

Modelling conventions:
- Decimal amounts are modelled as rationals (`ℚ`); Python `Decimal`
  division by zero is modelled by an explicit zero test.
- Python exceptions are modelled by an error constructor in the operation
  result type; `NotImplemented` is a distinct result constructor.
- Django settings (process-wide configuration) are an explicit `Settings`
  argument.
- The external exchange-rate conversion collaborator
  (`contrib.exchange.models.convert_money`, repository code outside the
  sources in scope) is an abstract function argument `conv`, per the spec:
  `convert(value, targetCurrency) -> value`.
- Caller-visible mutable dicts are modelled by a heap (`DictStore`) of
  cells addressed by natural-number references, so that the view-vs-copy
  semantics of `MappingProxyType` is observable.
- A base-library (`py-moneyed`) money value, which lacks the adapter's
  attributes, is represented as a `Money` whose `decimal_places` and
  `format_options` are `none`: defensive `getattr` reads of a missing
  attribute and of an attribute set to `None` are indistinguishable here,
  exactly as in `_copy_attributes`.
-/

namespace DjMoney

/-- Python exceptions observable through the adapter.  `attributeError a`
records the name of the missing attribute; `invalidOperation` stands for
`decimal.InvalidOperation` raised by a failed `Decimal` coercion. -/
inductive PyErr
  | typeError (msg : String)
  | attributeError (missingAttr : String)
  | zeroDivisionError
  | invalidOperation
  deriving DecidableEq, Repr

/-- A formatting-parameter value stored in a format-options mapping
(booleans such as `symbol`/`grouping`, or strings such as `locale`). -/
inductive FmtVal
  | b (v : Bool)
  | s (v : String)
  deriving DecidableEq, Repr

/-- A Python dict of formatting parameters, as an association list in
insertion order (Python dicts preserve insertion order). -/
abbrev FmtMap := List (String × FmtVal)

/-- The heap of caller-visible mutable dict objects, addressed by
natural-number references.  Mutating a dict in place is `set`. -/
structure DictStore where
  cells : List FmtMap
  deriving DecidableEq, Repr

/-- Dereference a dict. -/
def DictStore.get (s : DictStore) (r : ℕ) : FmtMap :=
  s.cells.getD r []

/-- In-place mutation of the dict behind reference `r` (what a caller does
to the original mapping after constructing a `Money` from it). -/
def DictStore.set (s : DictStore) (r : ℕ) (m : FmtMap) : DictStore :=
  ⟨s.cells.set r m⟩

/-- Modelled from the spec: a *combinable query expression* of the ORM
expression system — a framework-level placeholder for a deferred database
computation, identified only by an opaque id.  The expression system
itself is an external collaborator. -/
structure Combinable where
  id : ℕ
  deriving DecidableEq, Repr

/-- Modelled from the spec: the result of invoking one of the expression
system's reflected arithmetic hooks (`__radd__`, `__rsub__`, `__rmul__`,
`__rtruediv__`) on a combinable expression with a concrete amount.  We
record which hook ran, on which expression, with which amount. -/
inductive CombinedExpr
  | radd (c : Combinable) (amount : ℚ)
  | rsub (c : Combinable) (amount : ℚ)
  | rmul (c : Combinable) (amount : ℚ)
  | rtruediv (c : Combinable) (amount : ℚ)
  deriving DecidableEq, Repr

/-- Process-wide configuration consumed by the adapter: the default
decimal-places hint (`djmoney.settings.DECIMAL_PLACES`), the currency
auto-conversion flag (`settings.AUTO_CONVERT_MONEY`, absent means
`false`), the default format-options mapping
(`djmoney.settings.MONEY_FORMAT`), the default language code
(`settings.LANGUAGE_CODE`) and the currently active translation language
(`translation.get_language()`, `none` when no language is active). -/
structure Settings where
  DECIMAL_PLACES : ℕ
  AUTO_CONVERT_MONEY : Bool
  MONEY_FORMAT : FmtMap
  LANGUAGE_CODE : String
  currentLanguage : Option String
  deriving DecidableEq, Repr

/-- The adapter's money value: the base type's `amount` and `currency`
plus the adapter's `decimal_places` hint and `format_options`.
`format_options` holds a reference to the caller's dict — the
`MappingProxyType` read-only view created in `__init__` wraps the same
underlying dict object — or `none`. -/
structure Money where
  amount : ℚ
  currency : String
  decimal_places : Option ℕ
  format_options : Option ℕ
  deriving DecidableEq, Repr

/-- `Money.__init__` (money.py:33-36).  `dpKwarg` models the
`decimal_places` keyword: `none` when absent (the settings default
`DECIMAL_PLACES` is used), `some v` when passed with value `v` (which may
itself be `None`, i.e. `some none`).  `formatOptions` is the caller's
dict reference; when not `None` it is stored wrapped in a
`MappingProxyType` — a read-only view of the SAME dict, not a copy. -/
def Money.init (st : Settings) (amount : ℚ) (currency : String)
    (dpKwarg : Option (Option ℕ)) (formatOptions : Option ℕ) : Money :=
  { amount := amount
    currency := currency
    decimal_places := dpKwarg.getD (some st.DECIMAL_PLACES)
    format_options := formatOptions }

/-- `self.__class__(amount, currency)` as performed inside the base
library's operators and `__round__`: no extra keywords, so the
`decimal_places` default applies and `format_options` is `None`. -/
def Money.make (st : Settings) (amount : ℚ) (currency : String) : Money :=
  Money.init st amount currency none none

/-- Reading the contents of an instance's `format_options` view: a
`MappingProxyType` is a live read-only view, so the lookup goes through
the current state of the underlying dict. -/
def Money.readFormatOptions (store : DictStore) (m : Money) : Option FmtMap :=
  m.format_options.map store.get

/-- Item assignment through a `MappingProxyType` view: always rejected
with a `TypeError`, regardless of the instance, key or value. -/
def proxySetItem (_m : Money) (_k : String) (_v : FmtVal) : Except PyErr Unit :=
  .error (.typeError "mappingproxy object does not support item assignment")

/-- The possible `other` operand of an arithmetic operator: a money value
(adapter or base — see the representation note above), a plain number, or
a combinable query expression. -/
inductive Operand
  | money (m : Money)
  | num (q : ℚ)
  | combinable (c : Combinable)
  deriving DecidableEq, Repr

/-- `getattr(candidate, "decimal_places", None)`: numbers and expressions
have no such attribute. -/
def Operand.dpAttr : Operand → Option ℕ
  | .money m => m.decimal_places
  | _ => none

/-- The external conversion collaborator,
`convert_money(value, currency)`: abstract, supplied by the environment. -/
abbrev ConvFn := Money → String → Money

/-- `maybe_convert` (money.py:204-212): when `AUTO_CONVERT_MONEY` is set
and the operand's currency differs from `currency`, convert via the
external collaborator.  Reading `value.currency` on a plain number or an
expression raises `AttributeError` (the flag read short-circuits the
access when the flag is off). -/
def maybe_convert (conv : ConvFn) (st : Settings) (value : Operand)
    (currency : String) : Except PyErr Operand :=
  if st.AUTO_CONVERT_MONEY then
    match value with
    | .money m =>
        if m.currency ≠ currency then .ok (.money (conv m currency)) else .ok value
    | _ => .error (.attributeError "currency")
  else .ok value

/-- The `selection` list of `_copy_attributes` (money.py:49-53): the
defined `decimal_places` of `(self, source)`, in that order. -/
def copySelection (self : Money) (source : Operand) : List ℕ :=
  [self.decimal_places, source.dpAttr].filterMap id

/-- The effect of `_copy_attributes(source, target)` (money.py:38-55) on
the target's `decimal_places`: the maximum of the defined values when any
exist, otherwise the target's value is left untouched. -/
def copyAttributesDp (self : Money) (source : Operand) (targetDp : Option ℕ) :
    Option ℕ :=
  match copySelection self source with
  | [] => targetDp
  | d :: ds => some (ds.foldl max d)

/-- The observable result of a binary operator: a money value, a deferred
expression, a plain decimal, the `NotImplemented` singleton, or a raised
exception. -/
inductive OpResult
  | money (m : Money)
  | expr (e : CombinedExpr)
  | dec (q : ℚ)
  | notImplemented
  | err (e : PyErr)
  deriving DecidableEq, Repr

/-- The `decimal_places` of a money result, when the result is one. -/
def OpResult.dp : OpResult → Option (Option ℕ)
  | .money m => some m.decimal_places
  | _ => none

/-- The `format_options` of a money result, when the result is one. -/
def OpResult.fmt : OpResult → Option (Option ℕ)
  | .money m => some m.format_options
  | _ => none

/-- Whether the result is a money value. -/
def OpResult.isMoney : OpResult → Bool
  | .money _ => true
  | _ => false

/-- Running `self._copy_attributes(other, result)` on the result of a base
operation.  An exception from the base operation propagates before the
copy runs; setting `decimal_places` on the `NotImplemented` singleton (or
any non-money result) raises `AttributeError` unless the selection is
empty, in which case no assignment is attempted. -/
def applyCopy (self : Money) (source : Operand) : OpResult → OpResult
  | .money r =>
      .money { r with decimal_places := copyAttributesDp self source r.decimal_places }
  | .err e => .err e
  | r =>
      match copySelection self source with
      | [] => r
      | _ :: _ => .err (.attributeError "decimal_places")

/-- Base library (`py-moneyed`) `Money.__add__`, as invoked through
`super()` on an adapter instance, so `self.__class__` is the adapter's
constructor.  A numeric zero operand returns `self` itself (the `sum()`
accommodation); a non-money operand gives `NotImplemented`; differing
currencies raise `TypeError`. -/
def defaultAdd (st : Settings) (self : Money) (other : Operand) : OpResult :=
  match other with
  | .num q => if q = 0 then .money self else .notImplemented
  | .money o =>
      if self.currency = o.currency then
        .money (Money.make st (self.amount + o.amount) self.currency)
      else
        .err (.typeError "Cannot add or subtract two Money instances with different currencies.")
  | .combinable _ => .notImplemented

/-- Base library `Money.__sub__`: mirrors `__add__` with subtraction,
including the zero shortcut returning `self`. -/
def defaultSub (st : Settings) (self : Money) (other : Operand) : OpResult :=
  match other with
  | .num q => if q = 0 then .money self else .notImplemented
  | .money o =>
      if self.currency = o.currency then
        .money (Money.make st (self.amount - o.amount) self.currency)
      else
        .err (.typeError "Cannot add or subtract two Money instances with different currencies.")
  | .combinable _ => .notImplemented

/-- Base library `Money.__mul__`: multiplying two money values raises
`TypeError`; a numeric operand scales the amount. -/
def defaultMul (st : Settings) (self : Money) (other : Operand) : OpResult :=
  match other with
  | .money _ => .err (.typeError "Cannot multiply two Money instances.")
  | .num q => .money (Money.make st (self.amount * q) self.currency)
  | .combinable _ => .err .invalidOperation

/-- Base library `Money.__truediv__`: a money divisor of the same currency
yields the plain decimal ratio of the amounts (division by a zero amount
raises); a money divisor of a different currency raises `TypeError`; a
numeric divisor yields a new money value. -/
def defaultTruediv (st : Settings) (self : Money) (other : Operand) : OpResult :=
  match other with
  | .money o =>
      if self.currency = o.currency then
        if o.amount = 0 then .err .zeroDivisionError
        else .dec (self.amount / o.amount)
      else .err (.typeError "Cannot divide two different currencies.")
  | .num q =>
      if q = 0 then .err .zeroDivisionError
      else .money (Money.make st (self.amount / q) self.currency)
  | .combinable _ => .err .invalidOperation

/-- Base library `Money.__rmod__` (percentage): `x % money` computes
`x` percent of the amount; a money left operand raises `TypeError`; a
non-numeric left operand fails `Decimal` coercion. -/
def defaultRmod (st : Settings) (self : Money) (other : Operand) : OpResult :=
  match other with
  | .money _ => .err (.typeError "Invalid __rmod__ operation")
  | .num q => .money (Money.make st (q * self.amount / 100) self.currency)
  | .combinable _ => .err .invalidOperation

/-- `Money.__add__` (money.py:65-71): a combinable operand delegates to
its reflected addition with `self.amount`; otherwise the operand is
passed through `maybe_convert`, the base addition runs, and
`_copy_attributes(other, result)` is applied. -/
def Money.add (conv : ConvFn) (st : Settings) (self : Money) (other : Operand) :
    OpResult :=
  match other with
  | .combinable c => .expr (.radd c self.amount)
  | _ =>
      match maybe_convert conv st other self.currency with
      | .error e => .err e
      | .ok other2 => applyCopy self other2 (defaultAdd st self other2)

/-- `Money.__radd__` (money.py:107-108): delegates to `__add__`. -/
def Money.radd (conv : ConvFn) (st : Settings) (self : Money) (other : Operand) :
    OpResult :=
  Money.add conv st self other

/-- `Money.__sub__` (money.py:81-87): same pattern as `__add__` with the
reflected subtraction and the base subtraction. -/
def Money.sub (conv : ConvFn) (st : Settings) (self : Money) (other : Operand) :
    OpResult :=
  match other with
  | .combinable c => .expr (.rsub c self.amount)
  | _ =>
      match maybe_convert conv st other self.currency with
      | .error e => .err e
      | .ok other2 => applyCopy self other2 (defaultSub st self other2)

/-- `Money.__mul__` (money.py:97-102): a combinable operand delegates to
its reflected multiplication; otherwise the base multiplication runs on
the operand as given (no `maybe_convert` step) and attributes are
copied. -/
def Money.mul (st : Settings) (self : Money) (other : Operand) : OpResult :=
  match other with
  | .combinable c => .expr (.rmul c self.amount)
  | _ => applyCopy self other (defaultMul st self other)

/-- `Money.__rmul__` (money.py:104-105): delegates to `__mul__`. -/
def Money.rmul (st : Settings) (self : Money) (other : Operand) : OpResult :=
  Money.mul st self other

/-- `Money.__truediv__` (money.py:122-128): a combinable operand delegates
to its reflected division; otherwise the base division runs on the operand
as given (no `maybe_convert` step), and attributes are copied only when
the result is an instance of the adapter class. -/
def Money.truediv (st : Settings) (self : Money) (other : Operand) : OpResult :=
  match other with
  | .combinable c => .expr (.rtruediv c self.amount)
  | _ =>
      match defaultTruediv st self other with
      | .money r =>
          .money { r with decimal_places := copyAttributesDp self other r.decimal_places }
      | r => r

/-- `Money.__rtruediv__` (money.py:130-133): unconditionally raises
`TypeError`, in the adapter itself. -/
def Money.rtruediv (_self : Money) (_other : Operand) : OpResult :=
  .err (.typeError "Cannot divide non-Money by a Money instance.")

/-- `Money.__rmod__` (money.py:186-189): runs the base `__rmod__`, then
`_copy_attributes(self, new)` — the source is `self`, not `other`. -/
def Money.rmod (st : Settings) (self : Money) (other : Operand) : OpResult :=
  applyCopy self (.money self) (defaultRmod st self other)

/-- `Money.__pos__` (money.py:171-174): base `__pos__` builds a fresh
instance with the same amount, then `_copy_attributes(self, new)`. -/
def Money.pos (st : Settings) (self : Money) : Money :=
  let new := Money.make st self.amount self.currency
  { new with decimal_places := copyAttributesDp self (.money self) new.decimal_places }

/-- `Money.__neg__` (money.py:176-179). -/
def Money.neg (st : Settings) (self : Money) : Money :=
  let new := Money.make st (-self.amount) self.currency
  { new with decimal_places := copyAttributesDp self (.money self) new.decimal_places }

/-- `Money.__abs__` (money.py:181-184). -/
def Money.abs (st : Settings) (self : Money) : Money :=
  let new := Money.make st |self.amount| self.currency
  { new with decimal_places := copyAttributesDp self (.money self) new.decimal_places }

/-- Round half to even of a rational, the rounding mode of Python
`Decimal` (and of built-in `round` on `Decimal`). -/
def rintHalfEven (q : ℚ) : ℤ :=
  let f := ⌊q⌋
  let frac := q - f
  if frac < 1 / 2 then f
  else if frac > 1 / 2 then f + 1
  else if f % 2 = 0 then f else f + 1

/-- Rounding the amount to `n` decimal digits, half to even — the
semantics of both `round(self.amount, n)` and `Decimal.quantize` used by
the base library's `round` method. -/
def decimalRound (n : ℤ) (q : ℚ) : ℚ :=
  (rintHalfEven (q * (10 : ℚ) ^ n) : ℚ) / (10 : ℚ) ^ n

/-- `Money.__round__` (money.py:160-164): round the amount (`n = none`
models `round(amount, None)`, rounding to an integer), construct
`self.__class__(amount, self.currency)`, then
`_copy_attributes(self, new)`. -/
def Money.roundDunder (st : Settings) (self : Money) (n : Option ℤ) : Money :=
  let amount := decimalRound (n.getD 0) self.amount
  let new := Money.make st amount self.currency
  { new with decimal_places := copyAttributesDp self (.money self) new.decimal_places }

/-- `Money.round` (money.py:166-169): base `round(ndigits)` builds a fresh
instance from the quantized amount, then `_copy_attributes(self, new)`. -/
def Money.round (st : Settings) (self : Money) (ndigits : ℤ) : Money :=
  let new := Money.make st (decimalRound ndigits self.amount) self.currency
  { new with decimal_places := copyAttributesDp self (.money self) new.decimal_places }

/-- Python dict item assignment `m[k] = v` on an ordinary dict: replace in
place when the key exists (keeping its position), else append. -/
def upsert (m : FmtMap) (k : String) (v : FmtVal) : FmtMap :=
  match m with
  | [] => [(k, v)]
  | (k2, v2) :: rest =>
      if k2 = k then (k, v) :: rest else (k2, v2) :: upsert rest k v

/-- The Python dict merge `\x7b**a, **b\x7d`: start from `a` and assign
each entry of `b` in order, so `b` wins on key collisions. -/
def dictMerge (a b : FmtMap) : FmtMap :=
  b.foldl (fun acc kv => upsert acc kv.1 kv.2) a

/-- `get_current_locale` (money.py:196-201):
`translation.to_locale(translation.get_language() or settings.LANGUAGE_CODE)`.
`to_locale` is Django's locale-name transformation, an external
collaborator passed as `toLocale`; `or` falls through on `None` and on the
empty string. -/
def get_current_locale (toLocale : String → String) (st : Settings) : String :=
  toLocale (match st.currentLanguage with
    | some l => if l = "" then st.LANGUAGE_CODE else l
    | none => st.LANGUAGE_CODE)

/-- The keyword options `Money.__str__` (money.py:147-155) passes to
`moneyed.l10n.format_money`: the merge `\x7b**MONEY_FORMAT,
**(self.format_options or \x7b\x7d)\x7d`, with `locale` assigned on top
when the resolved locale string is non-empty. -/
def Money.strOptions (toLocale : String → String) (st : Settings)
    (store : DictStore) (m : Money) : FmtMap :=
  let fo := dictMerge st.MONEY_FORMAT ((m.readFormatOptions store).getD [])
  let locale := get_current_locale toLocale st
  if locale ≠ "" then upsert fo "locale" (.s locale) else fo

/-- `Money.__str__` (money.py:147-155): delegates the numeric-to-text
formatting to the external collaborator `format_money` with the merged
options. -/
def Money.str (fmtFn : Money → FmtMap → String) (toLocale : String → String)
    (st : Settings) (store : DictStore) (m : Money) : String :=
  fmtFn m (Money.strOptions toLocale st store m)

/-- Modelled from the spec sentence of the claim under test: the behavior
the spec asserts for division — "if currency auto-conversion is
process-wide enabled and the other operand's currency differs from this
instance's currency, convert the other operand to this instance's
currency via the external exchange-rate conversion service before the
numeric computation is delegated to the base type".  Identical to
`Money.truediv` except for the inserted `maybe_convert` step. -/
def truedivClaimed (conv : ConvFn) (st : Settings) (self : Money)
    (other : Operand) : OpResult :=
  match other with
  | .combinable c => .expr (.rtruediv c self.amount)
  | _ =>
      match maybe_convert conv st other self.currency with
      | .error e => .err e
      | .ok other2 =>
          match defaultTruediv st self other2 with
          | .money r =>
              .money { r with decimal_places := copyAttributesDp self other2 r.decimal_places }
          | r => r

/-! ## Helper lemmas -/

/-- `maybe_convert` is the identity on a money operand whose currency
already matches. -/
lemma maybe_convert_money_eq (conv : ConvFn) (st : Settings) (b : Money)
    (cur : String) (h : b.currency = cur) :
    maybe_convert conv st (.money b) cur = .ok (.money b) := by
  unfold maybe_convert
  cases st.AUTO_CONVERT_MONEY <;> simp [h]

/-- When both operands define `decimal_places`, the copy rule yields the
maximum. -/
lemma copyAttributesDp_both {da db : ℕ} (a b : Money) (t : Option ℕ)
    (hda : a.decimal_places = some da) (hdb : b.decimal_places = some db) :
    copyAttributesDp a (.money b) t = some (max da db) := by
  simp [copyAttributesDp, copySelection, Operand.dpAttr, hda, hdb]

/-- Copying from `(self, self)` preserves a defined `decimal_places`. -/
lemma copyAttributesDp_self {da : ℕ} (a : Money) (t : Option ℕ)
    (hda : a.decimal_places = some da) :
    copyAttributesDp a (.money a) t = some da := by
  simp [copyAttributesDp, copySelection, Operand.dpAttr, hda]

/-- Copying from a numeric source (which has no `decimal_places`
attribute) keeps a defined `decimal_places` of `self`. -/
lemma copyAttributesDp_num {da : ℕ} (a : Money) (q : ℚ) (t : Option ℕ)
    (hda : a.decimal_places = some da) :
    copyAttributesDp a (.num q) t = some da := by
  simp [copyAttributesDp, copySelection, Operand.dpAttr, hda]

/-! ## Claims -/

/-- C1: for MoneyValues `a`, `b` with the same currency and both
`decimalPlaces` defined, `(a + b).decimalPlaces = max(a.dp, b.dp)`; and
every operation deriving a new MoneyValue from one or two existing
MoneyValues — subtraction, multiplication by a number, division by a
(nonzero) number, modulo-reverse, the unary operators, rounding —
likewise sets the result's `decimalPlaces` to the maximum of the
operands' defined `decimalPlaces` values (for the one-MoneyValue
operations, the maximum over the single defined value `da`). -/
theorem derived_decimalPlaces_is_max (conv : ConvFn) (st : Settings)
    (a b : Money) (q : ℚ) (da db : ℕ) (n : Option ℤ) (nd : ℤ)
    (hcur : b.currency = a.currency) (hq : q ≠ 0)
    (hda : a.decimal_places = some da) (hdb : b.decimal_places = some db) :
    (Money.add conv st a (.money b)).dp = some (some (max da db))
    ∧ (Money.sub conv st a (.money b)).dp = some (some (max da db))
    ∧ (Money.mul st a (.num q)).dp = some (some da)
    ∧ (Money.truediv st a (.num q)).dp = some (some da)
    ∧ (Money.rmod st a (.num q)).dp = some (some da)
    ∧ (Money.pos st a).decimal_places = some da
    ∧ (Money.neg st a).decimal_places = some da
    ∧ (Money.abs st a).decimal_places = some da
    ∧ (Money.roundDunder st a n).decimal_places = some da
    ∧ (Money.round st a nd).decimal_places = some da := by
  refine ⟨?_, ?_, ?_, ?_, ?_, ?_, ?_, ?_, ?_, ?_⟩
  · simp [Money.add, maybe_convert_money_eq conv st b a.currency hcur, defaultAdd,
      hcur, applyCopy, copyAttributesDp_both a b _ hda hdb, OpResult.dp]
  · simp [Money.sub, maybe_convert_money_eq conv st b a.currency hcur, defaultSub,
      hcur, applyCopy, copyAttributesDp_both a b _ hda hdb, OpResult.dp]
  · simp [Money.mul, defaultMul, applyCopy, copyAttributesDp_num a q _ hda, OpResult.dp]
  · simp [Money.truediv, defaultTruediv, hq, copyAttributesDp_num a q _ hda, OpResult.dp]
  · simp [Money.rmod, defaultRmod, applyCopy, copyAttributesDp_self a _ hda, OpResult.dp]
  · simp [Money.pos, copyAttributesDp_self a _ hda]
  · simp [Money.neg, copyAttributesDp_self a _ hda]
  · simp [Money.abs, copyAttributesDp_self a _ hda]
  · simp [Money.roundDunder, copyAttributesDp_self a _ hda]
  · simp [Money.round, copyAttributesDp_self a _ hda]

/-- Witness for C1 at a concrete input. -/
theorem derived_decimalPlaces_is_max_witness :
    (Money.add (fun m _ => m) ⟨2, false, [], "", none⟩ ⟨10, "USD", some 2, none⟩
        (.money ⟨5, "USD", some 3, none⟩)).dp = some (some (max 2 3))
    ∧ (Money.sub (fun m _ => m) ⟨2, false, [], "", none⟩ ⟨10, "USD", some 2, none⟩
        (.money ⟨5, "USD", some 3, none⟩)).dp = some (some (max 2 3))
    ∧ (Money.mul ⟨2, false, [], "", none⟩ ⟨10, "USD", some 2, none⟩ (.num 3)).dp = some (some 2)
    ∧ (Money.truediv ⟨2, false, [], "", none⟩ ⟨10, "USD", some 2, none⟩ (.num 3)).dp = some (some 2)
    ∧ (Money.rmod ⟨2, false, [], "", none⟩ ⟨10, "USD", some 2, none⟩ (.num 3)).dp = some (some 2)
    ∧ (Money.pos ⟨2, false, [], "", none⟩ ⟨10, "USD", some 2, none⟩).decimal_places = some 2
    ∧ (Money.neg ⟨2, false, [], "", none⟩ ⟨10, "USD", some 2, none⟩).decimal_places = some 2
    ∧ (Money.abs ⟨2, false, [], "", none⟩ ⟨10, "USD", some 2, none⟩).decimal_places = some 2
    ∧ (Money.roundDunder ⟨2, false, [], "", none⟩ ⟨10, "USD", some 2, none⟩ none).decimal_places = some 2
    ∧ (Money.round ⟨2, false, [], "", none⟩ ⟨10, "USD", some 2, none⟩ 0).decimal_places = some 2 :=
  derived_decimalPlaces_is_max (fun m _ => m) ⟨2, false, [], "", none⟩
    ⟨10, "USD", some 2, none⟩ ⟨5, "USD", some 3, none⟩ 3 2 3 none 0 rfl (by decide) rfl rfl

/-- C3: the reverse-division hook rejects every operand unconditionally
with a `TypeError` raised by the adapter itself. -/
theorem rtruediv_always_typeError (m : Money) (x : Operand) :
    Money.rtruediv m x = .err (.typeError "Cannot divide non-Money by a Money instance.") :=
  rfl

/-- C7: a combinable operand makes addition return exactly the operand's
reflected-addition invocation on `self.amount` — an expression object,
not a MoneyValue, with no metadata propagation — and subtraction,
multiplication and division delegate analogously. -/
theorem combinable_delegates_reflected (conv : ConvFn) (st : Settings)
    (m : Money) (c : Combinable) :
    Money.add conv st m (.combinable c) = .expr (.radd c m.amount)
    ∧ Money.sub conv st m (.combinable c) = .expr (.rsub c m.amount)
    ∧ Money.mul st m (.combinable c) = .expr (.rmul c m.amount)
    ∧ Money.truediv st m (.combinable c) = .expr (.rtruediv c m.amount) :=
  ⟨rfl, rfl, rfl, rfl⟩

/-- C6: rounding a MoneyValue with `decimalPlaces = d` (both through the
built-in `round` hook and through the `round` method) yields a new
MoneyValue with the rounded amount, the same currency, and
`decimalPlaces = d`; `format_options` is the fresh default. -/
theorem round_preserves_metadata (st : Settings) (a : Money) (d : ℕ)
    (n : Option ℤ) (nd : ℤ) (hd : a.decimal_places = some d) :
    Money.roundDunder st a n =
      ⟨decimalRound (n.getD 0) a.amount, a.currency, some d, none⟩
    ∧ Money.round st a nd = ⟨decimalRound nd a.amount, a.currency, some d, none⟩ := by
  constructor
  · simp [Money.roundDunder, Money.make, Money.init, copyAttributesDp_self a _ hd]
  · simp [Money.round, Money.make, Money.init, copyAttributesDp_self a _ hd]

/-- Witness for C6 at a concrete input: 3.5 rounds (half to even) to 4. -/
theorem round_preserves_metadata_witness :
    (Money.roundDunder ⟨2, false, [], "", none⟩ ⟨7 / 2, "USD", some 2, none⟩ none =
      ⟨decimalRound 0 (7 / 2), "USD", some 2, none⟩
    ∧ Money.round ⟨2, false, [], "", none⟩ ⟨7 / 2, "USD", some 2, none⟩ 0 =
      ⟨decimalRound 0 (7 / 2), "USD", some 2, none⟩)
    ∧ decimalRound 0 (7 / 2) = 4 :=
  ⟨round_preserves_metadata ⟨2, false, [], "", none⟩ ⟨7 / 2, "USD", some 2, none⟩
      2 none 0 rfl,
    by
      have hf : ⌊(7 : ℚ) / 2 * (10 : ℚ) ^ (0 : ℤ)⌋ = 3 := by norm_num
      rw [decimalRound, rintHalfEven]
      rw [hf]
      norm_num⟩

/-- C9: every operation deriving a new MoneyValue (addition, subtraction,
multiplication and division by a number, the unary operators, rounding)
leaves the result's `format_options` at the default `none`, whatever the
operands' `format_options` are: only `decimal_places` is copied. -/
theorem derived_formatOptions_none (conv : ConvFn) (st : Settings)
    (a b : Money) (q : ℚ) (n : Option ℤ) (nd : ℤ)
    (hcur : b.currency = a.currency) (hq : q ≠ 0) :
    (Money.add conv st a (.money b)).fmt = some none
    ∧ (Money.sub conv st a (.money b)).fmt = some none
    ∧ (Money.mul st a (.num q)).fmt = some none
    ∧ (Money.truediv st a (.num q)).fmt = some none
    ∧ (Money.pos st a).format_options = none
    ∧ (Money.neg st a).format_options = none
    ∧ (Money.abs st a).format_options = none
    ∧ (Money.roundDunder st a n).format_options = none
    ∧ (Money.round st a nd).format_options = none := by
  refine ⟨?_, ?_, ?_, ?_, ?_, ?_, ?_, ?_, ?_⟩
  · simp [Money.add, maybe_convert_money_eq conv st b a.currency hcur, defaultAdd,
      hcur, applyCopy, Money.make, Money.init, OpResult.fmt]
  · simp [Money.sub, maybe_convert_money_eq conv st b a.currency hcur, defaultSub,
      hcur, applyCopy, Money.make, Money.init, OpResult.fmt]
  · simp [Money.mul, defaultMul, applyCopy, Money.make, Money.init, OpResult.fmt]
  · simp [Money.truediv, defaultTruediv, hq, Money.make, Money.init, OpResult.fmt]
  · simp [Money.pos, Money.make, Money.init]
  · simp [Money.neg, Money.make, Money.init]
  · simp [Money.abs, Money.make, Money.init]
  · simp [Money.roundDunder, Money.make, Money.init]
  · simp [Money.round, Money.make, Money.init]

/-- Witness for C9 at a concrete input with both operands carrying
`format_options` references. -/
theorem derived_formatOptions_none_witness :
    (Money.add (fun m _ => m) ⟨2, false, [], "", none⟩ ⟨10, "USD", some 2, some 0⟩
        (.money ⟨5, "USD", some 3, some 1⟩)).fmt = some none
    ∧ (Money.sub (fun m _ => m) ⟨2, false, [], "", none⟩ ⟨10, "USD", some 2, some 0⟩
        (.money ⟨5, "USD", some 3, some 1⟩)).fmt = some none
    ∧ (Money.mul ⟨2, false, [], "", none⟩ ⟨10, "USD", some 2, some 0⟩ (.num 3)).fmt = some none
    ∧ (Money.truediv ⟨2, false, [], "", none⟩ ⟨10, "USD", some 2, some 0⟩ (.num 3)).fmt = some none
    ∧ (Money.pos ⟨2, false, [], "", none⟩ ⟨10, "USD", some 2, some 0⟩).format_options = none
    ∧ (Money.neg ⟨2, false, [], "", none⟩ ⟨10, "USD", some 2, some 0⟩).format_options = none
    ∧ (Money.abs ⟨2, false, [], "", none⟩ ⟨10, "USD", some 2, some 0⟩).format_options = none
    ∧ (Money.roundDunder ⟨2, false, [], "", none⟩ ⟨10, "USD", some 2, some 0⟩ none).format_options = none
    ∧ (Money.round ⟨2, false, [], "", none⟩ ⟨10, "USD", some 2, some 0⟩ 0).format_options = none :=
  derived_formatOptions_none (fun m _ => m) ⟨2, false, [], "", none⟩
    ⟨10, "USD", some 2, some 0⟩ ⟨5, "USD", some 3, some 1⟩ 3 none 0 rfl (by decide)

/-- C10 counterexample: with currency auto-conversion enabled, `m + 0`
does not return `m` — `maybe_convert` reads `currency` on the integer
operand and raises `AttributeError` — so zero is not unconditionally a
two-sided identity. -/
theorem add_zero_autoconvert_counterexample :
    Money.add (fun m _ => m) ⟨2, true, [], "", none⟩ ⟨5, "USD", some 2, none⟩ (.num 0) =
      .err (.attributeError "currency")
    ∧ Money.add (fun m _ => m) ⟨2, true, [], "", none⟩ ⟨5, "USD", some 2, none⟩ (.num 0) ≠
      .money ⟨5, "USD", some 2, none⟩ := by
  constructor
  · rfl
  · decide

/-- C10 amended: when currency auto-conversion is disabled (its default),
zero is a two-sided identity for MoneyValue addition, preserving the
instance (metadata included): the base addition returns `self` on a zero
operand and the metadata copy reads the integer's missing
`decimal_places` defensively. -/
theorem add_zero_identity (conv : ConvFn) (st : Settings) (m : Money)
    (hoff : st.AUTO_CONVERT_MONEY = false) :
    Money.add conv st m (.num 0) = .money m
    ∧ Money.radd conv st m (.num 0) = .money m := by
  have key : Money.add conv st m (.num 0) = .money m := by
    obtain ⟨am, cur, dp, fo⟩ := m
    cases dp <;>
      simp [Money.add, maybe_convert, hoff, defaultAdd, applyCopy,
        copyAttributesDp, copySelection, Operand.dpAttr]
  exact ⟨key, key⟩

/-- Witness for C10 at a concrete input. -/
theorem add_zero_identity_witness :
    Money.add (fun m _ => m) ⟨2, false, [], "", none⟩ ⟨5, "USD", some 2, some 0⟩ (.num 0) =
      .money ⟨5, "USD", some 2, some 0⟩
    ∧ Money.radd (fun m _ => m) ⟨2, false, [], "", none⟩ ⟨5, "USD", some 2, some 0⟩ (.num 0) =
      .money ⟨5, "USD", some 2, some 0⟩ :=
  add_zero_identity (fun m _ => m) ⟨2, false, [], "", none⟩ ⟨5, "USD", some 2, some 0⟩ rfl

/-- C4 counterexample: two MoneyValues with equal currency and equal
amount `0` do not divide to the decimal `1` — the division raises
`ZeroDivisionError`. -/
theorem truediv_equal_zero_amounts_counterexample :
    Money.truediv ⟨2, false, [], "", none⟩ ⟨0, "USD", some 2, none⟩
      (.money ⟨0, "USD", some 2, none⟩) = .err .zeroDivisionError
    ∧ Money.truediv ⟨2, false, [], "", none⟩ ⟨0, "USD", some 2, none⟩
      (.money ⟨0, "USD", some 2, none⟩) ≠ .dec 1 := by
  constructor
  · rfl
  · decide

/-- C4 amended: dividing a MoneyValue by a MoneyValue of the same
currency and nonzero amount yields the plain decimal ratio of the
amounts (not a MoneyValue, no metadata propagation); with equal nonzero
amounts the ratio is `1`; dividing by a nonzero plain number yields a new
MoneyValue. -/
theorem truediv_ratio_and_number (st : Settings) (a b : Money) (q : ℚ)
    (hcur : b.currency = a.currency) (hb : b.amount ≠ 0) (hq : q ≠ 0) :
    Money.truediv st a (.money b) = .dec (a.amount / b.amount)
    ∧ (a.amount = b.amount → Money.truediv st a (.money b) = .dec 1)
    ∧ (Money.truediv st a (.num q)).isMoney = true := by
  have hmain : Money.truediv st a (.money b) = .dec (a.amount / b.amount) := by
    simp [Money.truediv, defaultTruediv, hcur, hb]
  refine ⟨hmain, ?_, ?_⟩
  · intro heq
    rw [hmain, heq, div_self hb]
  · simp [Money.truediv, defaultTruediv, hq, OpResult.isMoney]

/-- Witness for C4 (amended) at a concrete input. -/
theorem truediv_ratio_and_number_witness :
    Money.truediv ⟨2, false, [], "", none⟩ ⟨6, "USD", some 2, none⟩
      (.money ⟨6, "USD", some 3, none⟩) = .dec (6 / 6)
    ∧ ((6 : ℚ) = 6 → Money.truediv ⟨2, false, [], "", none⟩ ⟨6, "USD", some 2, none⟩
      (.money ⟨6, "USD", some 3, none⟩) = .dec 1)
    ∧ (Money.truediv ⟨2, false, [], "", none⟩ ⟨6, "USD", some 2, none⟩ (.num 3)).isMoney = true :=
  truediv_ratio_and_number ⟨2, false, [], "", none⟩ ⟨6, "USD", some 2, none⟩
    ⟨6, "USD", some 3, none⟩ 3 rfl (by decide) (by decide)

/-- C2 counterexample: with auto-conversion enabled and differing
currencies, division does not convert the other operand — the code
raises the base library's cross-currency `TypeError`, while the claimed
convert-first pattern (`truedivClaimed`, at a rate making the amounts
equal) would return the decimal `1`. -/
theorem truediv_ignores_autoconvert_counterexample :
    Money.truediv ⟨2, true, [], "", none⟩ ⟨10, "USD", some 2, none⟩
      (.money ⟨5, "EUR", some 2, none⟩) =
      .err (.typeError "Cannot divide two different currencies.")
    ∧ truedivClaimed (fun m c => ⟨m.amount * 2, c, some 2, none⟩)
      ⟨2, true, [], "", none⟩ ⟨10, "USD", some 2, none⟩
      (.money ⟨5, "EUR", some 2, none⟩) = .dec 1
    ∧ Money.truediv ⟨2, true, [], "", none⟩ ⟨10, "USD", some 2, none⟩
      (.money ⟨5, "EUR", some 2, none⟩) ≠
      truedivClaimed (fun m c => ⟨m.amount * 2, c, some 2, none⟩)
      ⟨2, true, [], "", none⟩ ⟨10, "USD", some 2, none⟩
      (.money ⟨5, "EUR", some 2, none⟩) := by
  have h1 : Money.truediv ⟨2, true, [], "", none⟩ ⟨10, "USD", some 2, none⟩
      (.money ⟨5, "EUR", some 2, none⟩) =
      .err (.typeError "Cannot divide two different currencies.") := rfl
  have h2 : truedivClaimed (fun m c => ⟨m.amount * 2, c, some 2, none⟩)
      ⟨2, true, [], "", none⟩ ⟨10, "USD", some 2, none⟩
      (.money ⟨5, "EUR", some 2, none⟩) = .dec 1 := by
    simp [truedivClaimed, maybe_convert, defaultTruediv]
    norm_num
  refine ⟨h1, h2, ?_⟩
  rw [h1, h2]
  simp

/-- C2 amended: only addition and subtraction perform the auto-conversion
step — when the flag is on and the other operand's currency differs, the
converted operand feeds the rest of the pipeline; multiplication,
division and modulo-reverse are insensitive to the flag and delegate to
the base type unconverted, so cross-currency division surfaces the base
library's `TypeError` even with the flag on. -/
theorem autoconvert_only_in_add_sub (conv : ConvFn) (st : Settings)
    (a b : Money) (o : Operand)
    (hflag : st.AUTO_CONVERT_MONEY = true) (hcur : b.currency ≠ a.currency) :
    Money.add conv st a (.money b) =
      Money.add conv { st with AUTO_CONVERT_MONEY := false } a (.money (conv b a.currency))
    ∧ Money.sub conv st a (.money b) =
      Money.sub conv { st with AUTO_CONVERT_MONEY := false } a (.money (conv b a.currency))
    ∧ Money.mul st a o = Money.mul { st with AUTO_CONVERT_MONEY := false } a o
    ∧ Money.truediv st a o = Money.truediv { st with AUTO_CONVERT_MONEY := false } a o
    ∧ Money.rmod st a o = Money.rmod { st with AUTO_CONVERT_MONEY := false } a o
    ∧ Money.truediv st a (.money b) =
      .err (.typeError "Cannot divide two different currencies.") := by
  have hadd : defaultAdd { st with AUTO_CONVERT_MONEY := false } a
      (.money (conv b a.currency)) = defaultAdd st a (.money (conv b a.currency)) := rfl
  have hsub : defaultSub { st with AUTO_CONVERT_MONEY := false } a
      (.money (conv b a.currency)) = defaultSub st a (.money (conv b a.currency)) := rfl
  refine ⟨?_, ?_, rfl, rfl, rfl, ?_⟩
  · simp [Money.add, maybe_convert, hflag, hcur, hadd]
  · simp [Money.sub, maybe_convert, hflag, hcur, hsub]
  · simp [Money.truediv, defaultTruediv, Ne.symm hcur]

/-- Witness for C2 (amended) at a concrete input. -/
theorem autoconvert_only_in_add_sub_witness :
    Money.add (fun m c => ⟨m.amount * 2, c, some 2, none⟩) ⟨2, true, [], "", none⟩
      ⟨10, "USD", some 2, none⟩ (.money ⟨5, "EUR", some 2, none⟩) =
      Money.add (fun m c => ⟨m.amount * 2, c, some 2, none⟩) ⟨2, false, [], "", none⟩
      ⟨10, "USD", some 2, none⟩ (.money ⟨5 * 2, "USD", some 2, none⟩)
    ∧ Money.sub (fun m c => ⟨m.amount * 2, c, some 2, none⟩) ⟨2, true, [], "", none⟩
      ⟨10, "USD", some 2, none⟩ (.money ⟨5, "EUR", some 2, none⟩) =
      Money.sub (fun m c => ⟨m.amount * 2, c, some 2, none⟩) ⟨2, false, [], "", none⟩
      ⟨10, "USD", some 2, none⟩ (.money ⟨5 * 2, "USD", some 2, none⟩)
    ∧ Money.mul ⟨2, true, [], "", none⟩ ⟨10, "USD", some 2, none⟩ (.num 3) =
      Money.mul ⟨2, false, [], "", none⟩ ⟨10, "USD", some 2, none⟩ (.num 3)
    ∧ Money.truediv ⟨2, true, [], "", none⟩ ⟨10, "USD", some 2, none⟩ (.num 3) =
      Money.truediv ⟨2, false, [], "", none⟩ ⟨10, "USD", some 2, none⟩ (.num 3)
    ∧ Money.rmod ⟨2, true, [], "", none⟩ ⟨10, "USD", some 2, none⟩ (.num 3) =
      Money.rmod ⟨2, false, [], "", none⟩ ⟨10, "USD", some 2, none⟩ (.num 3)
    ∧ Money.truediv ⟨2, true, [], "", none⟩ ⟨10, "USD", some 2, none⟩
      (.money ⟨5, "EUR", some 2, none⟩) =
      .err (.typeError "Cannot divide two different currencies.") :=
  autoconvert_only_in_add_sub (fun m c => ⟨m.amount * 2, c, some 2, none⟩)
    ⟨2, true, [], "", none⟩ ⟨10, "USD", some 2, none⟩ ⟨5, "EUR", some 2, none⟩
    (.num 3) rfl (by decide)

/-- C5 counterexample: the stored `format_options` is not a snapshot —
after the caller mutates the original dict, the contents seen through the
instance's stored view change accordingly. -/
theorem formatOptions_live_view_counterexample :
    Money.readFormatOptions
      (DictStore.set ⟨[[("symbol", FmtVal.b false)]]⟩ 0 [("symbol", FmtVal.b true)])
      (Money.init ⟨2, false, [], "", none⟩ 5 "USD" none (some 0)) =
      some [("symbol", FmtVal.b true)]
    ∧ Money.readFormatOptions ⟨[[("symbol", FmtVal.b false)]]⟩
      (Money.init ⟨2, false, [], "", none⟩ 5 "USD" none (some 0)) =
      some [("symbol", FmtVal.b false)] :=
  ⟨rfl, rfl⟩

/-- Setting an in-range cell and reading it back through `getD`. -/
lemma getD_set_eq : ∀ (l : List FmtMap) (r : ℕ) (v : FmtMap), r < l.length →
    (l.set r v).getD r [] = v
  | [], r, v, h => absurd h (by simp)
  | _ :: _, 0, _, _ => rfl
  | _ :: xs, r + 1, v, h =>
    getD_set_eq xs r v (Nat.lt_of_succ_lt_succ (by simpa using h))

/-- C5 amended: the stored `format_options` is a read-only live view of
the caller's mapping: item assignment through the view is rejected with a
`TypeError`, while an in-place mutation of the original mapping is
visible through the instance's stored view. -/
theorem formatOptions_readonly_view (store : DictStore) (m : Money) (r : ℕ)
    (d : FmtMap) (k : String) (v : FmtVal)
    (h : m.format_options = some r) (hr : r < store.cells.length) :
    proxySetItem m k v =
      .error (.typeError "mappingproxy object does not support item assignment")
    ∧ Money.readFormatOptions (store.set r d) m = some d := by
  refine ⟨rfl, ?_⟩
  simp only [Money.readFormatOptions, h, Option.map_some', DictStore.set, DictStore.get,
    Option.some.injEq]
  exact getD_set_eq store.cells r d hr

/-- Witness for C5 (amended) at a concrete input. -/
theorem formatOptions_readonly_view_witness :
    proxySetItem (Money.init ⟨2, false, [], "", none⟩ 5 "USD" none (some 0)) "symbol" (.b true) =
      .error (.typeError "mappingproxy object does not support item assignment")
    ∧ Money.readFormatOptions
      (DictStore.set ⟨[[("symbol", FmtVal.b false)]]⟩ 0 [("grouping", FmtVal.b true)])
      (Money.init ⟨2, false, [], "", none⟩ 5 "USD" none (some 0)) =
      some [("grouping", FmtVal.b true)] :=
  formatOptions_readonly_view ⟨[[("symbol", FmtVal.b false)]]⟩
    (Money.init ⟨2, false, [], "", none⟩ 5 "USD" none (some 0)) 0
    [("grouping", FmtVal.b true)] "symbol" (.b true) rfl (by decide)

/-- Lookup misses a list whose keys avoid `k`. -/
lemma lookup_eq_none_of_not_mem : ∀ (l : FmtMap) (k : String),
    k ∉ l.map Prod.fst → List.lookup k l = none
  | [], _, _ => rfl
  | (k0, v0) :: rest, k, h => by
    have h1 : ¬k = k0 ∧ k ∉ rest.map Prod.fst := by
      simpa [not_or] using h
    have hb : (k == k0) = false := beq_eq_false_iff_ne.mpr h1.1
    simp [List.lookup, hb, lookup_eq_none_of_not_mem rest k h1.2]

/-- Lookup after a dict item assignment. -/
lemma lookup_upsert : ∀ (m : FmtMap) (k : String) (v : FmtVal) (k2 : String),
    List.lookup k2 (upsert m k v) = if k2 = k then some v else List.lookup k2 m
  | [], k, v, k2 => by
    by_cases h : k2 = k
    · simp [upsert, List.lookup, beq_iff_eq.mpr h, h]
    · simp [upsert, List.lookup, beq_eq_false_iff_ne.mpr h, h]
  | (k0, v0) :: rest, k, v, k2 => by
    by_cases h0 : k0 = k
    · by_cases h : k2 = k
      · simp [upsert, h0, List.lookup, beq_iff_eq.mpr h, h]
      · have hb0 : (k2 == k0) = false := beq_eq_false_iff_ne.mpr (by rw [h0]; exact h)
        simp [upsert, h0, List.lookup, beq_eq_false_iff_ne.mpr h, hb0, h]
    · by_cases h : k2 = k0
      · have hne : ¬k2 = k := by rw [h]; exact fun hh => h0 hh
        simp [upsert, h0, List.lookup, beq_iff_eq.mpr h, hne]
      · simp [upsert, h0, List.lookup, beq_eq_false_iff_ne.mpr h,
          lookup_upsert rest k v k2]

/-- Lookup in a Python dict merge, for a second dict with distinct keys
(as any real dict has): the second dict wins, the first fills the gaps. -/
lemma lookup_dictMerge : ∀ (b a : FmtMap) (k : String),
    (b.map Prod.fst).Nodup →
    List.lookup k (dictMerge a b) = (List.lookup k b).or (List.lookup k a)
  | [], a, k, _ => by simp [dictMerge, List.lookup]
  | (k0, v0) :: t, a, k, hb => by
    have hnd : (t.map Prod.fst).Nodup := (List.nodup_cons.mp (by simpa using hb)).2
    have hk0 : k0 ∉ t.map Prod.fst := (List.nodup_cons.mp (by simpa using hb)).1
    have step : dictMerge a ((k0, v0) :: t) = dictMerge (upsert a k0 v0) t := rfl
    rw [step, lookup_dictMerge t (upsert a k0 v0) k hnd, lookup_upsert]
    by_cases h : k = k0
    · subst h
      simp [List.lookup, lookup_eq_none_of_not_mem t _ hk0]
    · simp [List.lookup, beq_eq_false_iff_ne.mpr h, h]

/-- C8: string rendering passes the formatting library the merge of the
process-wide default format-options with the instance's `formatOptions`,
instance values winning on key collision and defaults filling the gaps
(stated for every key other than the injected `locale`); concretely,
instance `{"symbol": False}` over default
`{"symbol": True, "grouping": True}` merges to
`{"symbol": False, "grouping": True}`. -/
theorem strOptions_merge_instance_wins (toLocale : String → String)
    (st : Settings) (store : DictStore) (m : Money) (r : ℕ) (k : String)
    (h1 : m.format_options = some r) (h2 : k ≠ "locale")
    (h3 : ((store.get r).map Prod.fst).Nodup) :
    List.lookup k (Money.strOptions toLocale st store m) =
      (List.lookup k (store.get r)).or (List.lookup k st.MONEY_FORMAT)
    ∧ Money.strOptions id ⟨2, false, [("symbol", .b true), ("grouping", .b true)], "", none⟩
      ⟨[[("symbol", FmtVal.b false)]]⟩
      (Money.init ⟨2, false, [("symbol", .b true), ("grouping", .b true)], "", none⟩
        10 "USD" none (some 0)) =
      [("symbol", FmtVal.b false), ("grouping", FmtVal.b true)] := by
  constructor
  · by_cases hl : get_current_locale toLocale st = ""
    · simp [Money.strOptions, Money.readFormatOptions, h1, hl,
        lookup_dictMerge _ _ _ h3]
    · simp [Money.strOptions, Money.readFormatOptions, h1, hl,
        lookup_upsert, h2, lookup_dictMerge _ _ _ h3]
  · rfl

/-- Witness for C8 at a concrete input: the default fills the gap for
`"grouping"`. -/
theorem strOptions_merge_instance_wins_witness :
    List.lookup "grouping"
      (Money.strOptions id ⟨2, false, [("symbol", .b true), ("grouping", .b true)], "", none⟩
        ⟨[[("symbol", FmtVal.b false)]]⟩
        (Money.init ⟨2, false, [("symbol", .b true), ("grouping", .b true)], "", none⟩
          10 "USD" none (some 0))) =
      (List.lookup "grouping"
        (DictStore.get ⟨[[("symbol", FmtVal.b false)]]⟩ 0)).or
        (List.lookup "grouping" [("symbol", FmtVal.b true), ("grouping", FmtVal.b true)])
    ∧ Money.strOptions id ⟨2, false, [("symbol", .b true), ("grouping", .b true)], "", none⟩
      ⟨[[("symbol", FmtVal.b false)]]⟩
      (Money.init ⟨2, false, [("symbol", .b true), ("grouping", .b true)], "", none⟩
        10 "USD" none (some 0)) =
      [("symbol", FmtVal.b false), ("grouping", FmtVal.b true)] :=
  strOptions_merge_instance_wins id
    ⟨2, false, [("symbol", .b true), ("grouping", .b true)], "", none⟩
    ⟨[[("symbol", FmtVal.b false)]]⟩
    (Money.init ⟨2, false, [("symbol", .b true), ("grouping", .b true)], "", none⟩
      10 "USD" none (some 0))
    0 "grouping" rfl (by decide) (by decide)

end DjMoney
